import Mathlib

/-!
Shallow embedding of `cmd/headscale/cli/nodes.go` (headscale CLI node
commands): the node-record data model, the status-derivation and column
projection logic of `nodesToPtables`, and the event traces of the five
lifecycle commands (register, list, expire, delete, move).

Modelling conventions:
* Go `time.Time` values are integers counting seconds since Go's zero
  time, so the zero `time.Time` is `0` and `time.Minute` is `60`.
* External collaborators (the tailscale key decoder reached through
  `UnmarshalText`/`ShortString`, the `netaddr` address parser, Go's
  `time.Format`, the gRPC client, the survey prompt and the pterm
  renderer) are parameters: fallible ones return `Except`/`Option`.
* `pterm` colour helpers wrap a string in the corresponding ANSI
  escape sequence, exactly as the library does for light colours.
-/

namespace HeadscaleCli

/-- pterm.LightGreen: wrap in the ANSI light-green sequence (code 92). -/
def lightGreen (s : String) : String := "\x1b[92m" ++ s ++ "\x1b[0m"

/-- pterm.LightRed: wrap in the ANSI light-red sequence (code 91). -/
def lightRed (s : String) : String := "\x1b[91m" ++ s ++ "\x1b[0m"

/-- pterm.LightMagenta: wrap in the ANSI light-magenta sequence (code 95). -/
def lightMagenta (s : String) : String := "\x1b[95m" ++ s ++ "\x1b[0m"

/-- pterm.LightYellow: wrap in the ANSI light-yellow sequence (code 93). -/
def lightYellow (s : String) : String := "\x1b[93m" ++ s ++ "\x1b[0m"

/-- Go `strconv.FormatBool`. -/
def formatBool (b : Bool) : String := if b then "true" else "false"

/-- The namespace record referenced by a machine (`machine.Namespace`,
a Lean keyword, hence the field spelling `nspace` below). -/
structure NamespaceRec where
  name : String
  deriving DecidableEq, Repr

/-- `machine.PreAuthKey` (only the `Ephemeral` field is read). -/
structure PreAuthKey where
  ephemeral : Bool
  deriving DecidableEq, Repr

/-- The `v1.Machine` fields read by `nodes.go`.  Optional timestamps
(`LastSeen`, `Expiry`) are `Option Int`; `none` models a nil protobuf
timestamp. -/
structure Machine where
  id : Nat
  name : String
  nodeKey : String
  nspace : NamespaceRec
  ipAddresses : List String
  preAuthKey : Option PreAuthKey
  lastSeen : Option Int
  expiry : Option Int
  requestTags : List String
  requestedRoutes : List String
  enabledRoutes : List String
  deriving DecidableEq, Repr

/-- The `availableColumns` map.  A Go map lookup of a missing key yields
the zero value, so an unknown key yields `""`. -/
def availableColumns (column : String) : String :=
  if column == "id" then "ID"
  else if column == "name" then "Names"
  else if column == "nodekey" then "NodeKey"
  else if column == "namespace" then "Namespace"
  else if column == "ip_addresses" then "IP addresses"
  else if column == "ephemeral" then "Ephemeral"
  else if column == "last_seen" then "Last seen"
  else if column == "online" then "Online"
  else if column == "expired" then "Expired"
  else if column == "tags" then "Tags"
  else if column == "routes" then "Routes"
  else ""

/-- The keys actually present in the `availableColumns` map. -/
def knownColumnKeys : List String :=
  ["id", "name", "nodekey", "namespace", "ip_addresses", "ephemeral",
   "last_seen", "online", "expired", "tags", "routes"]

/-- The `defaultColumns` list. -/
def defaultColumns : List String :=
  ["id", "name", "nodekey", "namespace", "ip_addresses", "ephemeral",
   "last_seen", "online", "expired"]

/-- Modelled from the spec: the membership helper `isStringInSlice`
is defined elsewhere in the repository (only its caller is in scope
here); the spec says a route is approved iff it is present in
`enabled`, so the helper is list membership. -/
def isStringInSlice (slice : List String) (s : String) : Bool :=
  slice.contains s

/-- External collaborators of `nodesToPtables`, passed as data.
`decodeKeyShort` is the chain prefix-normalisation / `UnmarshalText` /
`ShortString` on the node key (`none` models a decode error);
`classifyIP` is `netaddr.MustParseIP(addr).Is4()` (`some true` = IPv4,
`some false` = IPv6, `none` = the string does not parse, in which case
`MustParseIP` panics); `formatTime` is Go's
`Format("2006-01-02 15:04:05")`; `now` is `time.Now()`. -/
structure Env where
  decodeKeyShort : String → Option String
  classifyIP : String → Option Bool
  formatTime : Int → String
  now : Int

/-- How a machine's row can fail to build: `keyDecodeError` models the
`UnmarshalText` error that `nodesToPtables` returns to its caller;
`addrCrash` models the `netaddr.MustParseIP` panic, which crashes the
process instead of reaching any error branch. -/
inductive RenderErr
  | keyDecodeError
  | addrCrash
  deriving DecidableEq, Repr

/-- The `online` column: `lastSeen.After(time.Now().Add(-5 * time.Minute))`,
where a nil `LastSeen` leaves `lastSeen` at the zero time. -/
def onlineStatus (lastSeen : Option Int) (now : Int) : String :=
  if lastSeen.getD 0 > now - 5 * 60 then lightGreen "online" else lightRed "offline"

/-- The `expired` column: `expiry.IsZero() || expiry.After(time.Now())`
yields "no", otherwise "yes"; a nil `Expiry` leaves `expiry` at the
zero time. -/
def expiredStatus (expiry : Option Int) (now : Int) : String :=
  if expiry.getD 0 = 0 ∨ expiry.getD 0 > now then lightGreen "no" else lightRed "yes"

/-- The `namespace` column: magenta when no filter is active or the
machine is owned by the current namespace, yellow (shared) otherwise. -/
def namespaceStatus (currentNamespace : String) (m : Machine) : String :=
  if currentNamespace == "" || currentNamespace == m.nspace.name then
    lightMagenta m.nspace.name
  else
    lightYellow m.nspace.name

/-- The address loop of `nodesToPtables`: for each address, assign it to
`IpV4Address` if `Is4`, else to `IpV6Address` (each assignment
overwrites the previous one of the same family).  `none` models the
`MustParseIP` panic on an unparsable address. -/
def classifyLoop (classifyIP : String → Option Bool) (v4 v6 : String) :
    List String → Option (String × String)
  | [] => some (v4, v6)
  | addr :: rest =>
    match classifyIP addr with
    | none => none
    | some true => classifyLoop classifyIP addr v6 rest
    | some false => classifyLoop classifyIP v4 addr rest

/-- The routes loop: one entry per requested route, `*`-prefixed green
when enabled, red otherwise. -/
def routesOf (m : Machine) : List String :=
  m.requestedRoutes.map fun route =>
    if isStringInSlice m.enabledRoutes route then "*" ++ lightGreen route
    else lightRed route

/-- The `ephemeral` local of the machine loop: true iff a pre-auth key
is present and ephemeral. -/
def machineEphemeral (m : Machine) : Bool :=
  match m.preAuthKey with
  | some pak => pak.ephemeral
  | none => false

/-- The `lastSeenTime` local: the formatted timestamp, or `""` when
`LastSeen` is nil. -/
def lastSeenTimeOf (env : Env) (m : Machine) : String :=
  match m.lastSeen with
  | some t => env.formatTime t
  | none => ""

/-- The per-machine `defaultData` map of `nodesToPtables`, as a lookup
function over column keys (a missing key yields the Go zero value
`""`).  `nodeKeyShort`, `ipV4Address` and `ipV6Address` are the local
variables computed before the map literal. -/
def defaultData (env : Env) (currentNamespace : String) (m : Machine)
    (nodeKeyShort ipV4Address ipV6Address : String) (column : String) :
    String :=
  if column == "id" then toString m.id
  else if column == "name" then m.name
  else if column == "nodekey" then nodeKeyShort
  else if column == "namespace" then namespaceStatus currentNamespace m
  else if column == "ip_addresses" then
    String.intercalate ", " [ipV4Address, ipV6Address]
  else if column == "ephemeral" then formatBool (machineEphemeral m)
  else if column == "last_seen" then lastSeenTimeOf env m
  else if column == "online" then onlineStatus m.lastSeen env.now
  else if column == "expired" then expiredStatus m.expiry env.now
  else if column == "tags" then String.intercalate ", " m.requestTags
  else if column == "routes" then String.intercalate ", " (routesOf m)
  else ""

/-- Building one machine's `defaultData` map.  Fails with
`keyDecodeError` when the node key does not decode and with `addrCrash`
when an address does not parse, in the source's evaluation order (key
first, addresses second). -/
def machineCellMap (env : Env) (currentNamespace : String) (m : Machine) :
    Except RenderErr (String → String) :=
  match env.decodeKeyShort m.nodeKey with
  | none => .error .keyDecodeError
  | some nodeKeyShort =>
    match classifyLoop env.classifyIP "" "" m.ipAddresses with
    | none => .error .addrCrash
    | some (ipV4Address, ipV6Address) =>
      .ok (defaultData env currentNamespace m nodeKeyShort
        ipV4Address ipV6Address)

/-- One data row: the `defaultData` map projected through the requested
columns (or `defaultColumns` when the request is empty). -/
def machineRow (env : Env) (currentNamespace : String)
    (withColumns : List String) (m : Machine) :
    Except RenderErr (List String) :=
  match machineCellMap env currentNamespace m with
  | .error e => .error e
  | .ok dd =>
    .ok (if withColumns.length > 0 then withColumns.map dd
         else defaultColumns.map dd)

/-- The row-building loop of `nodesToPtables`: rows in machine order,
aborted by the first failing machine. -/
def buildRows (env : Env) (currentNamespace : String)
    (withColumns : List String) : List Machine →
    Except RenderErr (List (List String))
  | [] => .ok []
  | m :: rest =>
    match machineRow env currentNamespace withColumns m with
    | .error e => .error e
    | .ok row =>
      match buildRows env currentNamespace withColumns rest with
      | .error e => .error e
      | .ok rows => .ok (row :: rows)

/-- `nodesToPtables`: header from the requested (or default) columns,
then one row per machine; the first failing machine aborts the whole
table (`keyDecodeError` is the returned error, `addrCrash` the
`MustParseIP` panic). -/
def nodesToPtables (env : Env) (currentNamespace : String)
    (withColumns : List String) (machines : List Machine) :
    Except RenderErr (List (List String)) :=
  match buildRows env currentNamespace withColumns machines with
  | .error e => .error e
  | .ok rows =>
    .ok ((if withColumns.length > 0 then withColumns.map availableColumns
          else defaultColumns.map availableColumns) :: rows)

/-! ### Lifecycle command orchestration

Each command `Run` function is modelled as a function from its flag
values and collaborator behaviours to the ordered trace of observable
events: remote calls issued, the confirmation prompt, and the
user-visible messages (`ErrorOutput` / `SuccessOutput`, plus the
rendered table in list's table mode).  `crash` models a Go panic
propagating out of `nodesToPtables`. -/

/-- One observable step of a command invocation. -/
inductive Event
  | callRegisterMachine (key nspace : String)
  | callListMachines (namespaceFilter : String)
  | callGetMachine (id : Nat)
  | callExpireMachine (id : Nat)
  | callDeleteMachine (id : Nat)
  | callMoveMachine (id : Nat) (nspace : String)
  | askConfirm (message : String)
  | errorOutput (message : String)
  | successOutput (message : String)
  | renderTable (table : List (List String))
  | crash
  deriving DecidableEq, Repr

/-- Is this event a user-visible message emitted through
`ErrorOutput` or `SuccessOutput`? -/
def isOutput : Event → Bool
  | .errorOutput _ => true
  | .successOutput _ => true
  | _ => false

/-- Number of user-visible `ErrorOutput`/`SuccessOutput` messages in a
trace. -/
def outputCount (tr : List Event) : Nat :=
  (tr.filter isOutput).length

/-- `registerNodeCmd.Run`: namespace flag, key flag, then the
`RegisterMachine` call; every branch emits exactly one message. -/
def registerNodeCmd (output : String) (nspaceFlag : Except String String)
    (machineKeyFlag : Except String String)
    (registerMachine : String → String → Except String String) : List Event :=
  match nspaceFlag with
  | .error e => [.errorOutput ("Error getting namespace: " ++ e)]
  | .ok nspace =>
    match machineKeyFlag with
    | .error e => [.errorOutput ("Error getting machine key from flag: " ++ e)]
    | .ok machineKey =>
      .callRegisterMachine machineKey nspace ::
      match registerMachine machineKey nspace with
      | .error e => [.errorOutput ("Cannot register machine: " ++ e)]
      | .ok _ => [.successOutput "Machine register"]

/-- `expireNodeCmd.Run`: identifier flag, then the `ExpireMachine`
call. -/
def expireNodeCmd (output : String) (identifierFlag : Except String Nat)
    (expireMachine : Nat → Except String String) : List Event :=
  match identifierFlag with
  | .error e => [.errorOutput ("Error converting ID to integer: " ++ e)]
  | .ok id =>
    .callExpireMachine id ::
    match expireMachine id with
    | .error e => [.errorOutput ("Cannot expire machine: " ++ e)]
    | .ok _ => [.successOutput "Machine expired"]

/-- `listNodesCmd.Run`: namespace and columns flags, `ListMachines`,
then either structured output (non-empty `output`) or
`nodesToPtables` followed by the pterm render.  A `keyDecodeError`
from `nodesToPtables` reaches the "Error converting to table" branch;
an `addrCrash` is a panic and produces no message. -/
def listNodesCmd (output : String) (nspaceFlag : Except String String)
    (columnsFlag : Except String (List String))
    (listMachines : String → Except String (List Machine))
    (env : Env) (render : List (List String) → Except String Unit) : List Event :=
  match nspaceFlag with
  | .error e => [.errorOutput ("Error getting namespace: " ++ e)]
  | .ok nspace =>
    match columnsFlag with
    | .error e => [.errorOutput ("Error getting columns: " ++ e)]
    | .ok columns =>
      .callListMachines nspace ::
      match listMachines nspace with
      | .error e => [.errorOutput ("Cannot get nodes: " ++ e)]
      | .ok machines =>
        if output != "" then [.successOutput ""]
        else
          match nodesToPtables env nspace columns machines with
          | .error .keyDecodeError => [.errorOutput "Error converting to table"]
          | .error .addrCrash => [.crash]
          | .ok tableData =>
            match render tableData with
            | .error e => [.errorOutput ("Failed to render pterm table: " ++ e)]
            | .ok _ => [.renderTable tableData]

/-- The confirmation prompt message of `deleteNodeCmd`. -/
def deleteConfirmMsg (name : String) : String :=
  "Do you want to remove the node " ++ name ++ "?"

/-- The `if confirm || force` block of `deleteNodeCmd`: issue
`DeleteMachine`; with a non-empty `output` the response is serialized
through `SuccessOutput` before the error is even examined (a nil
response serializes as "null"), otherwise the error branch or the
"Node deleted" result follows. -/
def deleteMachineBlock (output : String) (id : Nat)
    (deleteMachine : Nat → Except String String) : List Event :=
  .callDeleteMachine id ::
  if output != "" then
    [.successOutput
      (match deleteMachine id with
       | .ok resp => resp
       | .error _ => "null")]
  else
    match deleteMachine id with
    | .error e => [.errorOutput ("Error deleting node: " ++ e)]
    | .ok _ => [.successOutput "Node deleted"]

/-- `deleteNodeCmd.Run`: identifier flag, `GetMachine` (for the display
name), then unless `--force` a confirmation prompt.  A prompt error
(`ask … = none`) is a bare `return`: the trace ends with no message.
Declining yields the "Node not deleted" success result without any
`DeleteMachine` call. -/
def deleteNodeCmd (output : String) (identifierFlag : Except String Nat)
    (force : Bool) (getMachineName : Nat → Except String String)
    (ask : String → Option Bool)
    (deleteMachine : Nat → Except String String) : List Event :=
  match identifierFlag with
  | .error e => [.errorOutput ("Error converting ID to integer: " ++ e)]
  | .ok id =>
    .callGetMachine id ::
    match getMachineName id with
    | .error e => [.errorOutput ("Error getting node node: " ++ e)]
    | .ok name =>
      if force then deleteMachineBlock output id deleteMachine
      else
        .askConfirm (deleteConfirmMsg name) ::
        match ask (deleteConfirmMsg name) with
        | none => []
        | some confirm =>
          if confirm then deleteMachineBlock output id deleteMachine
          else [.successOutput "Node not deleted"]

/-- `moveNodeCmd.Run`: identifier and namespace flags, `GetMachine` to
verify existence, then `MoveMachine`. -/
def moveNodeCmd (output : String) (identifierFlag : Except String Nat)
    (nspaceFlag : Except String String)
    (getMachine : Nat → Except String String)
    (moveMachine : Nat → String → Except String String) : List Event :=
  match identifierFlag with
  | .error e => [.errorOutput ("Error converting ID to integer: " ++ e)]
  | .ok id =>
    match nspaceFlag with
    | .error e => [.errorOutput ("Error getting namespace: " ++ e)]
    | .ok nspace =>
      .callGetMachine id ::
      match getMachine id with
      | .error e => [.errorOutput ("Error getting node: " ++ e)]
      | .ok _ =>
        .callMoveMachine id nspace ::
        match moveMachine id nspace with
        | .error e => [.errorOutput ("Error moving node: " ++ e)]
        | .ok _ => [.successOutput "Node moved to another namespace"]

/-! ### Concrete sample data

Executable instantiations of the external collaborators and of machine
records, used to evaluate the definitions at concrete inputs. -/

/-- A concrete address classifier recognising a fixed set of IPv4 and
IPv6 literals; anything else does not parse. -/
def sampleClassifyIP (a : String) : Option Bool :=
  if a = "100.64.0.1" ∨ a = "100.64.0.2" ∨ a = "100.64.0.3" then some true
  else if a = "fd7a::1" ∨ a = "fd7a::2" then some false
  else none

/-- A concrete environment for evaluating `nodesToPtables`. -/
def sampleEnv : Env :=
  { decodeKeyShort := fun s => some ("[" ++ s ++ "]")
    classifyIP := sampleClassifyIP
    formatTime := fun t => toString t
    now := 1000000 }

/-- A concrete machine record. -/
def mach1 : Machine :=
  { id := 1
    name := "node1"
    nodeKey := "mkey1"
    nspace := { name := "default" }
    ipAddresses := ["100.64.0.1", "fd7a::1"]
    preAuthKey := none
    lastSeen := some 1000
    expiry := none
    requestTags := []
    requestedRoutes := ["10.0.0.0/8", "0.0.0.0/0"]
    enabledRoutes := ["10.0.0.0/8"] }

/-- A second concrete machine record. -/
def mach2 : Machine :=
  { id := 2
    name := "node2"
    nodeKey := "mkey2"
    nspace := { name := "other" }
    ipAddresses := ["100.64.0.2"]
    preAuthKey := some { ephemeral := true }
    lastSeen := none
    expiry := some 999
    requestTags := ["tag:server"]
    requestedRoutes := []
    enabledRoutes := [] }

/-- `mach1` with an address that fails to parse. -/
def machBadAddr : Machine :=
  { mach1 with ipAddresses := ["bogus-address"] }

/-- The table `nodesToPtables` produces from `sampleEnv`, no namespace
filter, an empty column request and machines `mach1`, `mach2`. -/
def sampleTable : List (List String) :=
  [["ID", "Names", "NodeKey", "Namespace", "IP addresses", "Ephemeral",
    "Last seen", "Online", "Expired"],
   ["1", "node1", "[mkey1]", "\x1b[95mdefault\x1b[0m", "100.64.0.1, fd7a::1",
    "false", "1000", "\x1b[91moffline\x1b[0m", "\x1b[92mno\x1b[0m"],
   ["2", "node2", "[mkey2]", "\x1b[95mother\x1b[0m", "100.64.0.2, ",
    "true", "", "\x1b[91moffline\x1b[0m", "\x1b[91myes\x1b[0m"]]

/-! ### Helper lemmas -/

/-- When every address parses, the address loop keeps the last address
of each family (each assignment overwrites the previous one). -/
theorem classifyLoop_eq_getLastD (cls : String → Option Bool) :
    ∀ (addrs : List String), (∀ a ∈ addrs, (cls a).isSome) →
    ∀ v4 v6 : String,
      classifyLoop cls v4 v6 addrs =
        some ((addrs.filter fun a => cls a == some true).getLastD v4,
              (addrs.filter fun a => cls a == some false).getLastD v6) := by
  intro addrs
  induction addrs with
  | nil => intro _ v4 v6; simp [classifyLoop]
  | cons a rest ih =>
    intro h v4 v6
    have ha := h a (List.mem_cons_self a rest)
    have hrest : ∀ x ∈ rest, (cls x).isSome := fun x hx =>
      h x (List.mem_cons_of_mem a hx)
    cases hca : cls a with
    | none => rw [hca] at ha; simp at ha
    | some b =>
      cases b with
      | true =>
        have h4 : (fun x => cls x == some true) a = true := by
          simp only [hca]; rfl
        have h6 : ¬((fun x => cls x == some false) a = true) := by
          simp only [hca]; exact by decide
        simp only [classifyLoop, hca]
        rw [ih hrest a v6,
          @List.filter_cons_of_pos _ (fun x => cls x == some true) a rest h4,
          @List.filter_cons_of_neg _ (fun x => cls x == some false) a rest h6,
          List.getLastD_cons]
      | false =>
        have h4 : ¬((fun x => cls x == some true) a = true) := by
          simp only [hca]; exact by decide
        have h6 : (fun x => cls x == some false) a = true := by
          simp only [hca]; rfl
        simp only [classifyLoop, hca]
        rw [ih hrest v4 a,
          @List.filter_cons_of_pos _ (fun x => cls x == some false) a rest h6,
          @List.filter_cons_of_neg _ (fun x => cls x == some true) a rest h4,
          List.getLastD_cons]

/-- If any address fails to parse, the address loop fails (in the
source this is a `MustParseIP` panic). -/
theorem classifyLoop_none (cls : String → Option Bool) :
    ∀ (addrs : List String), (∃ a ∈ addrs, cls a = none) →
    ∀ v4 v6 : String, classifyLoop cls v4 v6 addrs = none := by
  intro addrs
  induction addrs with
  | nil => rintro ⟨a, ha, _⟩; cases ha
  | cons a rest ih =>
    rintro ⟨x, hx, hcx⟩ v4 v6
    rcases List.mem_cons.mp hx with rfl | hx2
    · simp [classifyLoop, hcx]
    · cases hca : cls a with
      | none => simp [classifyLoop, hca]
      | some b =>
        cases b <;> simp only [classifyLoop, hca] <;>
          exact ih ⟨x, hx2, hcx⟩ _ _

/-- Inversion for a successful `machineCellMap`: the key decoded, every
address parsed, and the map is `defaultData` of the resulting locals. -/
theorem machineCellMap_ok_inv (env : Env) (ns : String) (m : Machine)
    (dd : String → String) (h : machineCellMap env ns m = .ok dd) :
    ∃ s v4 v6, env.decodeKeyShort m.nodeKey = some s ∧
      classifyLoop env.classifyIP "" "" m.ipAddresses = some (v4, v6) ∧
      dd = defaultData env ns m s v4 v6 := by
  unfold machineCellMap at h
  split at h
  · exact Except.noConfusion h
  next s hs =>
    split at h
    · exact Except.noConfusion h
    next v4 v6 hpair =>
      cases h
      exact ⟨s, v4, v6, hs, hpair, rfl⟩

/-- Inversion for a successful `machineRow`: it is the cell map
projected through the requested (or default) columns. -/
theorem machineRow_ok_inv (env : Env) (ns : String) (cols : List String)
    (m : Machine) (row : List String)
    (h : machineRow env ns cols m = .ok row) :
    ∃ dd, machineCellMap env ns m = .ok dd ∧
      row = (if cols.length > 0 then cols.map dd
             else defaultColumns.map dd) := by
  unfold machineRow at h
  split at h
  · exact Except.noConfusion h
  next dd hdd =>
    cases h
    exact ⟨dd, hdd, rfl⟩

/-- A machine whose key does not decode fails with the returned
decode error. -/
theorem machineRow_key_error (env : Env) (ns : String) (cols : List String)
    (m : Machine) (h : env.decodeKeyShort m.nodeKey = none) :
    machineRow env ns cols m = .error .keyDecodeError := by
  unfold machineRow machineCellMap
  rw [h]

/-- A machine whose key decodes but one of whose addresses does not
parse fails with the crash outcome (the `MustParseIP` panic). -/
theorem machineRow_addr_crash (env : Env) (ns : String) (cols : List String)
    (m : Machine) (s : String) (hk : env.decodeKeyShort m.nodeKey = some s)
    (ha : ∃ a ∈ m.ipAddresses, env.classifyIP a = none) :
    machineRow env ns cols m = .error .addrCrash := by
  unfold machineRow machineCellMap
  rw [hk, classifyLoop_none env.classifyIP m.ipAddresses ha "" ""]

/-- A successful `buildRows` yields one row per machine. -/
theorem buildRows_ok_length (env : Env) (ns : String) (cols : List String) :
    ∀ (ms : List Machine) (rows : List (List String)),
      buildRows env ns cols ms = .ok rows → rows.length = ms.length := by
  intro ms
  induction ms with
  | nil =>
    intro rows h
    cases h
    rfl
  | cons m rest ih =>
    intro rows h
    unfold buildRows at h
    split at h
    · exact Except.noConfusion h
    next row hmr =>
      split at h
      · exact Except.noConfusion h
      next rows2 hbr =>
        cases h
        simp [ih rows2 hbr]

/-- A successful `buildRows` maps the j-th machine to the j-th row. -/
theorem buildRows_ok_get (env : Env) (ns : String) (cols : List String) :
    ∀ (ms : List Machine) (rows : List (List String)),
      buildRows env ns cols ms = .ok rows →
      ∀ (j : Nat) (m : Machine), ms.get? j = some m →
        ∃ row, rows.get? j = some row ∧
          machineRow env ns cols m = .ok row := by
  intro ms
  induction ms with
  | nil =>
    intro rows h j m hj
    cases hj
  | cons mhd rest ih =>
    intro rows h j m hj
    unfold buildRows at h
    split at h
    · exact Except.noConfusion h
    next row hmr =>
      split at h
      · exact Except.noConfusion h
      next rows2 hbr =>
        cases h
        cases j with
        | zero =>
          cases hj
          exact ⟨row, rfl, hmr⟩
        | succ j2 =>
          exact ih rows2 hbr j2 m hj

/-- Every row of a successful `buildRows` comes from some machine. -/
theorem buildRows_ok_mem (env : Env) (ns : String) (cols : List String) :
    ∀ (ms : List Machine) (rows : List (List String)),
      buildRows env ns cols ms = .ok rows →
      ∀ row ∈ rows, ∃ m ∈ ms, machineRow env ns cols m = .ok row := by
  intro ms
  induction ms with
  | nil =>
    intro rows h row hrow
    cases h
    cases hrow
  | cons mhd rest ih =>
    intro rows h row hrow
    unfold buildRows at h
    split at h
    · exact Except.noConfusion h
    next row2 hmr =>
      split at h
      · exact Except.noConfusion h
      next rows2 hbr =>
        cases h
        rcases List.mem_cons.mp hrow with rfl | hrow2
        · exact ⟨mhd, List.mem_cons_self mhd rest, hmr⟩
        · rcases ih rows2 hbr row hrow2 with ⟨m, hm, hok⟩
          exact ⟨m, List.mem_cons_of_mem mhd hm, hok⟩

/-- A failing machine anywhere in the list makes `buildRows` fail. -/
theorem buildRows_error_of_mem (env : Env) (ns : String) (cols : List String) :
    ∀ (ms : List Machine) (m : Machine), m ∈ ms →
      (∃ e, machineRow env ns cols m = .error e) →
      ∃ e, buildRows env ns cols ms = .error e := by
  intro ms
  induction ms with
  | nil =>
    intro m hm
    cases hm
  | cons mhd rest ih =>
    intro m hm ⟨e, he⟩
    rcases List.mem_cons.mp hm with rfl | hm2
    · exact ⟨e, by unfold buildRows; rw [he]⟩
    · rcases ih m hm2 ⟨e, he⟩ with ⟨e2, he2⟩
      cases hmr : machineRow env ns cols mhd with
      | error e3 => exact ⟨e3, by unfold buildRows; rw [hmr]⟩
      | ok row => exact ⟨e2, by unfold buildRows; rw [hmr, he2]⟩

/-- `nodesToPtables` inversion: a successful table is the header
followed by the built rows. -/
theorem nodesToPtables_ok_inv (env : Env) (ns : String) (cols : List String)
    (machines : List Machine) (table : List (List String))
    (h : nodesToPtables env ns cols machines = .ok table) :
    ∃ rows, buildRows env ns cols machines = .ok rows ∧
      table = (if cols.length > 0 then cols.map availableColumns
               else defaultColumns.map availableColumns) :: rows := by
  unfold nodesToPtables at h
  split at h
  · exact Except.noConfusion h
  next rows hbr =>
    cases h
    exact ⟨rows, hbr, rfl⟩

/-- A key not in the `availableColumns` map yields the Go zero value. -/
theorem availableColumns_unknown (k : String) (hk : k ∉ knownColumnKeys) :
    availableColumns k = "" := by
  have h1 : k ≠ "id" := fun he => hk (by rw [he]; decide)
  have h2 : k ≠ "name" := fun he => hk (by rw [he]; decide)
  have h3 : k ≠ "nodekey" := fun he => hk (by rw [he]; decide)
  have h4 : k ≠ "namespace" := fun he => hk (by rw [he]; decide)
  have h5 : k ≠ "ip_addresses" := fun he => hk (by rw [he]; decide)
  have h6 : k ≠ "ephemeral" := fun he => hk (by rw [he]; decide)
  have h7 : k ≠ "last_seen" := fun he => hk (by rw [he]; decide)
  have h8 : k ≠ "online" := fun he => hk (by rw [he]; decide)
  have h9 : k ≠ "expired" := fun he => hk (by rw [he]; decide)
  have h10 : k ≠ "tags" := fun he => hk (by rw [he]; decide)
  have h11 : k ≠ "routes" := fun he => hk (by rw [he]; decide)
  simp [availableColumns, h1, h2, h3, h4, h5, h6, h7, h8, h9, h10, h11]

/-- A key not in the `defaultData` map yields the Go zero value. -/
theorem defaultData_unknown (env : Env) (ns : String) (m : Machine)
    (s v4 v6 k : String) (hk : k ∉ knownColumnKeys) :
    defaultData env ns m s v4 v6 k = "" := by
  have h1 : k ≠ "id" := fun he => hk (by rw [he]; decide)
  have h2 : k ≠ "name" := fun he => hk (by rw [he]; decide)
  have h3 : k ≠ "nodekey" := fun he => hk (by rw [he]; decide)
  have h4 : k ≠ "namespace" := fun he => hk (by rw [he]; decide)
  have h5 : k ≠ "ip_addresses" := fun he => hk (by rw [he]; decide)
  have h6 : k ≠ "ephemeral" := fun he => hk (by rw [he]; decide)
  have h7 : k ≠ "last_seen" := fun he => hk (by rw [he]; decide)
  have h8 : k ≠ "online" := fun he => hk (by rw [he]; decide)
  have h9 : k ≠ "expired" := fun he => hk (by rw [he]; decide)
  have h10 : k ≠ "tags" := fun he => hk (by rw [he]; decide)
  have h11 : k ≠ "routes" := fun he => hk (by rw [he]; decide)
  simp [defaultData, h1, h2, h3, h4, h5, h6, h7, h8, h9, h10, h11]

/-! ### Claim theorems -/

/-- C5: the online derivation reports online iff lastSeen is present and
now minus lastSeen is under five minutes (300 seconds); at a gap of
exactly five minutes, and when lastSeen is absent, the node is reported
offline. -/
theorem C5_online (lastSeen : Option Int) (now : Int) (h : 300 ≤ now) :
    (onlineStatus lastSeen now = lightGreen "online" ↔
      ∃ t, lastSeen = some t ∧ now - t < 300) ∧
    (onlineStatus lastSeen now = lightRed "offline" ↔
      ¬∃ t, lastSeen = some t ∧ now - t < 300) := by
  have hne : lightGreen "online" ≠ lightRed "offline" := by decide
  have hcond : (lastSeen.getD 0 > now - 5 * 60) ↔
      ∃ t, lastSeen = some t ∧ now - t < 300 := by
    cases lastSeen with
    | none =>
      simp only [Option.getD]
      constructor
      · intro hgt; omega
      · rintro ⟨t, ht, _⟩; cases ht
    | some t =>
      simp only [Option.getD]
      constructor
      · intro hgt; exact ⟨t, rfl, by omega⟩
      · rintro ⟨t2, ht2, hlt⟩
        injection ht2 with ht2e
        omega
  unfold onlineStatus
  by_cases hc : lastSeen.getD 0 > now - 5 * 60
  · rw [if_pos hc]
    exact ⟨iff_of_true rfl (hcond.mp hc),
           iff_of_false (fun habs => hne habs)
             (fun hnp => hnp (hcond.mp hc))⟩
  · rw [if_neg hc]
    exact ⟨iff_of_false (fun habs => hne habs.symm)
             (fun hex => hc (hcond.mpr hex)),
           iff_of_true rfl (fun hex => hc (hcond.mpr hex))⟩

/-- Witness for C5 at a concrete input: `now = 1000000`, last seen 200
seconds earlier, reported online. -/
theorem C5_online_witness :
    ((300 : Int) ≤ 1000000) ∧
    onlineStatus (some 999800) 1000000 = lightGreen "online" :=
  ⟨by norm_num,
   ((C5_online (some 999800) 1000000 (by norm_num)).1).mpr
     ⟨999800, rfl, by norm_num⟩⟩

/-- C6: the expired derivation reports not-expired when expiry is
absent or the zero timestamp, and otherwise reports expired iff
now is at or past expiry (a node whose expiry equals now is expired). -/
theorem C6_expired (expiry : Option Int) (now : Int) :
    (expiredStatus expiry now = lightRed "yes" ↔
      ∃ t, expiry = some t ∧ t ≠ 0 ∧ t ≤ now) ∧
    (expiredStatus expiry now = lightGreen "no" ↔
      ¬∃ t, expiry = some t ∧ t ≠ 0 ∧ t ≤ now) := by
  have hne : lightGreen "no" ≠ lightRed "yes" := by decide
  have hcond : (¬(expiry.getD 0 = 0 ∨ expiry.getD 0 > now)) ↔
      ∃ t, expiry = some t ∧ t ≠ 0 ∧ t ≤ now := by
    cases expiry with
    | none =>
      simp only [Option.getD]
      constructor
      · intro hgt; exact absurd (Or.inl (by trivial)) hgt
      · rintro ⟨t, ht, _⟩; cases ht
    | some t =>
      simp only [Option.getD]
      constructor
      · intro hgt
        push_neg at hgt
        exact ⟨t, rfl, hgt.1, by omega⟩
      · rintro ⟨t2, ht2, hz, hle⟩
        injection ht2 with ht2e
        subst ht2e
        push_neg
        exact ⟨hz, by omega⟩
  unfold expiredStatus
  by_cases hc : expiry.getD 0 = 0 ∨ expiry.getD 0 > now
  · rw [if_pos hc]
    exact ⟨iff_of_false (fun habs => hne habs)
             (fun hex => (hcond.mpr hex) hc),
           iff_of_true rfl (fun hex => (hcond.mpr hex) hc)⟩
  · rw [if_neg hc]
    exact ⟨iff_of_true rfl (hcond.mp hc),
           iff_of_false (fun habs => hne habs.symm)
             (fun hnp => hnp (hcond.mp hc))⟩

/-- Witness for C6 at the boundary: expiry exactly equal to now is
reported expired. -/
theorem C6_expired_witness :
    expiredStatus (some 1000) 1000 = lightRed "yes" :=
  ((C6_expired (some 1000) 1000).1).mpr ⟨1000, rfl, by norm_num, le_refl 1000⟩

/-- C3 counterexample: with two IPv4 literals in the list, the
classification used for the ip_addresses column keeps the second
(last) one, not the first. -/
theorem C3_counterexample :
    classifyLoop sampleClassifyIP "" "" ["100.64.0.1", "100.64.0.2"] =
      some ("100.64.0.2", "") ∧
    classifyLoop sampleClassifyIP "" "" ["100.64.0.1", "100.64.0.2"] ≠
      some ("100.64.0.1", "") := by
  constructor
  · rfl
  · decide

/-- C3 (amended): for every address list whose members all parse, the
classification keeps the last IPv4 literal and the last IPv6 literal
encountered, dropping earlier addresses of the same family. -/
theorem C3_last_of_family (cls : String → Option Bool) (addrs : List String)
    (h : ∀ a ∈ addrs, (cls a).isSome) :
    classifyLoop cls "" "" addrs =
      some ((addrs.filter fun a => cls a == some true).getLastD "",
            (addrs.filter fun a => cls a == some false).getLastD "") :=
  classifyLoop_eq_getLastD cls addrs h "" ""

/-- Witness for C3 (amended) at a concrete three-address input. -/
theorem C3_last_of_family_witness :
    ((["100.64.0.1", "100.64.0.2", "fd7a::1"] : List String).all
      fun a => (sampleClassifyIP a).isSome) = true ∧
    classifyLoop sampleClassifyIP "" "" ["100.64.0.1", "100.64.0.2", "fd7a::1"] =
      some ("100.64.0.2", "fd7a::1") :=
  ⟨by decide,
   (C3_last_of_family sampleClassifyIP
     ["100.64.0.1", "100.64.0.2", "fd7a::1"] (by decide)).trans (by decide)⟩

/-- C7: the routes derivation produces exactly one entry per requested
route, in the original requested order; a route is marked approved (a
star and green) iff it is a member of enabled, regardless of enabled's
ordering (any permutation of enabled yields the same entries); enabled
entries not present in requested add no entry and cannot crash
rendering since only requested routes are traversed. -/
theorem C7_routes (m : Machine) :
    (routesOf m).length = m.requestedRoutes.length ∧
    (∀ i r, m.requestedRoutes.get? i = some r →
      (routesOf m).get? i =
        some (if r ∈ m.enabledRoutes then "*" ++ lightGreen r
              else lightRed r)) ∧
    (∀ enabled2, m.enabledRoutes.Perm enabled2 →
      routesOf { m with enabledRoutes := enabled2 } = routesOf m) := by
  refine ⟨List.length_map _ _, ?_, ?_⟩
  · intro i r hir
    rw [routesOf, List.get?_map, hir]
    by_cases hmem : r ∈ m.enabledRoutes <;> simp [isStringInSlice, hmem]
  · intro enabled2 hperm
    unfold routesOf
    apply List.map_congr_left
    intro r hr
    by_cases hmem : r ∈ m.enabledRoutes
    · have hmem2 : r ∈ enabled2 := hperm.mem_iff.mp hmem
      simp [isStringInSlice, hmem, hmem2]
    · have hmem2 : r ∉ enabled2 := fun hx => hmem (hperm.mem_iff.mpr hx)
      simp [isStringInSlice, hmem, hmem2]

/-- Witness for C7 at a concrete machine: two requested routes, the
first enabled, under the identity permutation of enabled. -/
theorem C7_routes_witness :
    (routesOf mach1).length = mach1.requestedRoutes.length ∧
    (routesOf mach1).get? 0 =
      some (if "10.0.0.0/8" ∈ mach1.enabledRoutes
            then "*" ++ lightGreen "10.0.0.0/8" else lightRed "10.0.0.0/8") ∧
    routesOf { mach1 with enabledRoutes := mach1.enabledRoutes } =
      routesOf mach1 :=
  ⟨(C7_routes mach1).1,
   (C7_routes mach1).2.1 0 "10.0.0.0/8" (by decide),
   (C7_routes mach1).2.2 mach1.enabledRoutes (List.Perm.refl _)⟩

/-- C2 counterexample: a request for the unknown column key "bogus" is
not rejected; `nodesToPtables` succeeds, building a header cell and one
data row whose cell for the unknown key is the empty string. -/
theorem C2_counterexample :
    nodesToPtables sampleEnv "" ["bogus"] [mach1] = .ok [[""], [""]] := rfl

/-- C2 (amended): an unknown column key is not rejected and no
configuration error is produced for it; whenever the table builds, the
header cell and every data-row cell at the unknown key's position are
the empty string (the Go zero value of the two map lookups). -/
theorem C2_unknown_key_blank (env : Env) (ns : String) (cols : List String)
    (machines : List Machine) (table : List (List String)) (i : Nat)
    (k : String) (htab : nodesToPtables env ns cols machines = .ok table)
    (hik : cols.get? i = some k) (hk : k ∉ knownColumnKeys) :
    ∀ row ∈ table, row.get? i = some "" := by
  have hpos : 0 < cols.length := by
    cases cols with
    | nil => cases hik
    | cons c cs => simp
  rcases nodesToPtables_ok_inv env ns cols machines table htab with
    ⟨rows, hbr, htabeq⟩
  subst htabeq
  intro row hrow
  rcases List.mem_cons.mp hrow with rfl | hrow2
  · rw [if_pos hpos, List.get?_map, hik]
    simp [availableColumns_unknown k hk]
  · rcases buildRows_ok_mem env ns cols machines rows hbr row hrow2 with
      ⟨m, hm, hok⟩
    rcases machineRow_ok_inv env ns cols m row hok with ⟨dd, hdd, hroweq⟩
    rcases machineCellMap_ok_inv env ns m dd hdd with
      ⟨s, v4, v6, hs, hpair, hddeq⟩
    subst hroweq
    rw [if_pos hpos, List.get?_map, hik]
    simp [hddeq, defaultData_unknown env ns m s v4 v6 k hk]

/-- Witness for C2 (amended) at the concrete counterexample input. -/
theorem C2_unknown_key_blank_witness :
    ([[""], [""]] : List (List String)).get? 0 = some [""] ∧
    ([""] : List String).get? 0 = some "" :=
  ⟨rfl,
   C2_unknown_key_blank sampleEnv "" ["bogus"] [mach1] [[""], [""]] 0 "bogus"
     rfl rfl (by decide) [""] (List.mem_cons_self _ _)⟩

/-- C10: a successful `nodesToPtables` emits the header and one data
row per machine, all in the caller-requested column order with
identical lengths; an empty request falls back to the fixed 9-column
default header. -/
theorem C10_projection (env : Env) (ns : String) (cols : List String)
    (machines : List Machine) (table : List (List String))
    (htab : nodesToPtables env ns cols machines = .ok table) :
    table.length = machines.length + 1 ∧
    table.head? = some ((if cols.length > 0 then cols
                         else defaultColumns).map availableColumns) ∧
    (cols = [] → table.head? =
      some ["ID", "Names", "NodeKey", "Namespace", "IP addresses",
            "Ephemeral", "Last seen", "Online", "Expired"]) ∧
    (∀ row ∈ table,
      row.length = (if cols.length > 0 then cols
                    else defaultColumns).length) ∧
    (∀ j m, machines.get? j = some m →
      ∃ dd, machineCellMap env ns m = .ok dd ∧
        table.get? (j + 1) =
          some ((if cols.length > 0 then cols
                 else defaultColumns).map dd)) := by
  rcases nodesToPtables_ok_inv env ns cols machines table htab with
    ⟨rows, hbr, htabeq⟩
  subst htabeq
  have hheader : (if cols.length > 0 then cols.map availableColumns
      else defaultColumns.map availableColumns) =
      (if cols.length > 0 then cols
       else defaultColumns).map availableColumns := by
    split <;> rfl
  refine ⟨?_, ?_, ?_, ?_, ?_⟩
  · simp [buildRows_ok_length env ns cols machines rows hbr]
  · rw [List.head?_cons, hheader]
  · intro hnil
    subst hnil
    rw [List.head?_cons]
    decide
  · intro row hrow
    rcases List.mem_cons.mp hrow with rfl | hrow2
    · rw [hheader, List.length_map]
    · rcases buildRows_ok_mem env ns cols machines rows hbr row hrow2 with
        ⟨m, hm, hok⟩
      rcases machineRow_ok_inv env ns cols m row hok with ⟨dd, hdd, hroweq⟩
      subst hroweq
      split <;> rw [List.length_map]
  · intro j m hj
    rcases buildRows_ok_get env ns cols machines rows hbr j m hj with
      ⟨row, hrowget, hok⟩
    rcases machineRow_ok_inv env ns cols m row hok with ⟨dd, hdd, hroweq⟩
    subst hroweq
    refine ⟨dd, hdd, ?_⟩
    rw [List.get?_cons_succ, hrowget]
    split <;> rfl

/-- Witness for C10 at an empty column request over two machines. -/
theorem C10_projection_witness :
    sampleTable.length = ([mach1, mach2] : List Machine).length + 1 ∧
    (([] : List String) = [] → sampleTable.head? =
      some ["ID", "Names", "NodeKey", "Namespace", "IP addresses",
            "Ephemeral", "Last seen", "Online", "Expired"]) :=
  ⟨(C10_projection sampleEnv "" [] [mach1, mach2] sampleTable rfl).1,
   (C10_projection sampleEnv "" [] [mach1, mach2] sampleTable rfl).2.2.1⟩

/-- C4 counterexample: a machine whose node key decodes but whose
address fails family detection does not take the error branch;
`nodesToPtables` ends in `addrCrash`, the outcome modelling the
`netaddr.MustParseIP` panic (a process crash). -/
theorem C4_counterexample :
    nodesToPtables sampleEnv "" [] [machBadAddr] = .error .addrCrash ∧
    RenderErr.addrCrash ≠ RenderErr.keyDecodeError :=
  ⟨rfl, by decide⟩

/-- C4 (amended): malformed data always aborts the whole table — no
partial table can be emitted because the result type carries either a
complete table or a failure — but the two kinds of malformed data
differ: a key that fails decoding takes the returned-error branch,
while an address that fails family detection crashes the process
(`MustParseIP` panic) instead of reaching any error branch. -/
theorem C4_malformed (env : Env) (ns : String) (cols : List String)
    (machines : List Machine) :
    ((∃ m ∈ machines, env.decodeKeyShort m.nodeKey = none ∨
        ∃ a ∈ m.ipAddresses, env.classifyIP a = none) →
      ∃ e, nodesToPtables env ns cols machines = .error e) ∧
    (∀ m, env.decodeKeyShort m.nodeKey = none →
      machineRow env ns cols m = .error .keyDecodeError) ∧
    (∀ m s, env.decodeKeyShort m.nodeKey = some s →
      (∃ a ∈ m.ipAddresses, env.classifyIP a = none) →
      machineRow env ns cols m = .error .addrCrash) := by
  refine ⟨?_, machineRow_key_error env ns cols, machineRow_addr_crash env ns cols⟩
  rintro ⟨m, hm, hbad⟩
  have herr : ∃ e, machineRow env ns cols m = .error e := by
    rcases hbad with hkey | haddr
    · exact ⟨.keyDecodeError, machineRow_key_error env ns cols m hkey⟩
    · cases hdk : env.decodeKeyShort m.nodeKey with
      | none => exact ⟨.keyDecodeError, machineRow_key_error env ns cols m hdk⟩
      | some s =>
        exact ⟨.addrCrash, machineRow_addr_crash env ns cols m s hdk haddr⟩
  rcases buildRows_error_of_mem env ns cols machines m hm herr with ⟨e, he⟩
  exact ⟨e, by unfold nodesToPtables; rw [he]⟩

/-- Witness for C4 (amended) at the concrete bad-address machine. -/
theorem C4_malformed_witness :
    machineRow sampleEnv "" [] machBadAddr = .error .addrCrash :=
  (C4_malformed sampleEnv "" [] [machBadAddr]).2.2 machBadAddr
    "[mkey1]" (by decide) ⟨"bogus-address", by decide, by decide⟩

/-- Prepending a non-message event leaves the message count unchanged. -/
theorem outputCount_cons_of_not (e : Event) (l : List Event)
    (h : isOutput e = false) : outputCount (e :: l) = outputCount l := by
  simp [outputCount, List.filter_cons, h]

/-- The `DeleteMachine` block always emits exactly one message: in
structured mode the serialized response (even when the call failed), in
table mode either the error or the "Node deleted" result. -/
theorem outputCount_deleteMachineBlock (output : String) (id : Nat)
    (deleteMachine : Nat → Except String String) :
    outputCount (deleteMachineBlock output id deleteMachine) = 1 := by
  unfold deleteMachineBlock
  split
  · rfl
  · cases hdm : deleteMachine id <;> rfl

/-- C8: a Delete invocation without the force flag whose confirmation
is answered no terminates with the "Node not deleted" success result,
and no DeleteMachine call is ever issued. -/
theorem C8_decline (output : String) (identifierFlag : Except String Nat)
    (getMachineName : Nat → Except String String)
    (ask : String → Option Bool) (deleteMachine : Nat → Except String String)
    (id : Nat) (name : String)
    (hid : identifierFlag = .ok id)
    (hget : getMachineName id = .ok name)
    (hask : ask (deleteConfirmMsg name) = some false) :
    deleteNodeCmd output identifierFlag false getMachineName ask
        deleteMachine =
      [.callGetMachine id, .askConfirm (deleteConfirmMsg name),
       .successOutput "Node not deleted"] ∧
    ∀ j, Event.callDeleteMachine j ∉
      deleteNodeCmd output identifierFlag false getMachineName ask
        deleteMachine := by
  subst hid
  have htr : deleteNodeCmd output (.ok id) false getMachineName ask
      deleteMachine =
      [.callGetMachine id, .askConfirm (deleteConfirmMsg name),
       .successOutput "Node not deleted"] := by
    simp [deleteNodeCmd, hget, hask]
  refine ⟨htr, ?_⟩
  intro j
  rw [htr]
  simp

/-- Witness for C8 at a concrete declined deletion. -/
theorem C8_decline_witness :
    deleteNodeCmd "" (.ok 1) false (fun _ => .ok "node1")
      (fun _ => some false) (fun _ => .ok "resp") =
      [.callGetMachine 1, .askConfirm (deleteConfirmMsg "node1"),
       .successOutput "Node not deleted"] :=
  (C8_decline "" (.ok 1) (fun _ => .ok "node1") (fun _ => some false)
    (fun _ => .ok "resp") 1 "node1" rfl rfl rfl).1

/-- C9: whenever a Move invocation issues the MoveMachine call, the
GetMachine call is literally the first event and the move follows it;
and whenever the GetMachine call fails, the command terminates with
one error message and no MoveMachine call. -/
theorem C9_move_get_first (output : String) (identifierFlag : Except String Nat)
    (nspaceFlag : Except String String)
    (getMachine : Nat → Except String String)
    (moveMachine : Nat → String → Except String String) :
    (∀ i ns2, Event.callMoveMachine i ns2 ∈
        moveNodeCmd output identifierFlag nspaceFlag getMachine moveMachine →
      (moveNodeCmd output identifierFlag nspaceFlag getMachine
          moveMachine).take 2 =
        [Event.callGetMachine i, Event.callMoveMachine i ns2]) ∧
    (∀ id nspace e, identifierFlag = .ok id → nspaceFlag = .ok nspace →
      getMachine id = .error e →
      moveNodeCmd output identifierFlag nspaceFlag getMachine moveMachine =
        [.callGetMachine id,
         .errorOutput ("Error getting node: " ++ e)]) := by
  constructor
  · intro i ns2 hmem
    cases identifierFlag with
    | error e => simp [moveNodeCmd] at hmem
    | ok id =>
      cases nspaceFlag with
      | error e => simp [moveNodeCmd] at hmem
      | ok nspace =>
        cases hg : getMachine id with
        | error e => simp [moveNodeCmd, hg] at hmem
        | ok mres =>
          cases hmv : moveMachine id nspace with
          | error e =>
            simp [moveNodeCmd, hg, hmv] at hmem
            rcases hmem with ⟨hi, hns⟩
            subst hi
            subst hns
            simp [moveNodeCmd, hg, hmv]
          | ok mres2 =>
            simp [moveNodeCmd, hg, hmv] at hmem
            rcases hmem with ⟨hi, hns⟩
            subst hi
            subst hns
            simp [moveNodeCmd, hg, hmv]
  · intro id nspace e hid hns hg
    subst hid
    subst hns
    simp [moveNodeCmd, hg]

/-- Witness for C9 at a concrete failing GetMachine. -/
theorem C9_move_get_first_witness :
    moveNodeCmd "" (.ok 1) (.ok "ns2") (fun _ => .error "boom")
      (fun _ _ => .ok "m") =
      [.callGetMachine 1, .errorOutput ("Error getting node: " ++ "boom")] :=
  (C9_move_get_first "" (.ok 1) (.ok "ns2") (fun _ => .error "boom")
    (fun _ _ => .ok "m")).2 1 "ns2" "boom" rfl rfl rfl

/-- C1 counterexample: a failing interactive confirmation (the prompt
collaborator returns no answer) terminates the Delete command silently:
the trace ends after the prompt with zero user-visible messages. -/
theorem C1_counterexample :
    deleteNodeCmd "" (.ok 1) false (fun _ => .ok "node1") (fun _ => none)
      (fun _ => .ok "resp") =
      [.callGetMachine 1, .askConfirm (deleteConfirmMsg "node1")] ∧
    outputCount (deleteNodeCmd "" (.ok 1) false (fun _ => .ok "node1")
      (fun _ => none) (fun _ => .ok "resp")) = 0 :=
  ⟨rfl, rfl⟩

/-- C1 (amended): Register, Expire and Move emit exactly one message on
every path; Delete emits exactly one message on every path — including
a failing remote deletion in either output mode — except when the
interactive confirmation step itself fails, which terminates silently
with zero messages; List emits exactly one message on every path except
a successful table render (where the table itself is the output) and
the address-parse crash. -/
theorem C1_amended :
    (∀ (output : String) (nsf keyf : Except String String)
        (reg : String → String → Except String String),
      outputCount (registerNodeCmd output nsf keyf reg) = 1) ∧
    (∀ (output : String) (idf : Except String Nat)
        (expire : Nat → Except String String),
      outputCount (expireNodeCmd output idf expire) = 1) ∧
    (∀ (output : String) (idf : Except String Nat)
        (nsf : Except String String) (get : Nat → Except String String)
        (mv : Nat → String → Except String String),
      outputCount (moveNodeCmd output idf nsf get mv) = 1) ∧
    (∀ (output : String) (idf : Except String Nat) (force : Bool)
        (get : Nat → Except String String) (ask : String → Option Bool)
        (del : Nat → Except String String),
      outputCount (deleteNodeCmd output idf force get ask del) = 1 ∨
      (outputCount (deleteNodeCmd output idf force get ask del) = 0 ∧
        ∃ id name, idf = .ok id ∧ get id = .ok name ∧ force = false ∧
          ask (deleteConfirmMsg name) = none)) ∧
    (∀ (output : String) (nsf : Except String String)
        (colsf : Except String (List String))
        (lst : String → Except String (List Machine)) (env : Env)
        (render : List (List String) → Except String Unit),
      outputCount (listNodesCmd output nsf colsf lst env render) = 1 ∨
      (outputCount (listNodesCmd output nsf colsf lst env render) = 0 ∧
        (Event.crash ∈ listNodesCmd output nsf colsf lst env render ∨
         ∃ t, Event.renderTable t ∈
           listNodesCmd output nsf colsf lst env render))) := by
  refine ⟨?_, ?_, ?_, ?_, ?_⟩
  · intro output nsf keyf reg
    cases nsf with
    | error e => rfl
    | ok nspace =>
      cases keyf with
      | error e => rfl
      | ok machineKey =>
        cases hr : reg machineKey nspace with
        | error e => simp [registerNodeCmd, hr, outputCount, isOutput]
        | ok r => simp [registerNodeCmd, hr, outputCount, isOutput]
  · intro output idf expire
    cases idf with
    | error e => rfl
    | ok id =>
      cases hr : expire id with
      | error e => simp [expireNodeCmd, hr, outputCount, isOutput]
      | ok r => simp [expireNodeCmd, hr, outputCount, isOutput]
  · intro output idf nsf get mv
    cases idf with
    | error e => rfl
    | ok id =>
      cases nsf with
      | error e => rfl
      | ok nspace =>
        cases hg : get id with
        | error e => simp [moveNodeCmd, hg, outputCount, isOutput]
        | ok mres =>
          cases hmv : mv id nspace with
          | error e => simp [moveNodeCmd, hg, hmv, outputCount, isOutput]
          | ok mres2 => simp [moveNodeCmd, hg, hmv, outputCount, isOutput]
  · intro output idf force get ask del
    cases idf with
    | error e => left; rfl
    | ok id =>
      cases hg : get id with
      | error e => left; simp [deleteNodeCmd, hg, outputCount, isOutput]
      | ok name =>
        cases force with
        | true =>
          left
          have htr : deleteNodeCmd output (.ok id) true get ask del =
              .callGetMachine id :: deleteMachineBlock output id del := by
            simp [deleteNodeCmd, hg]
          rw [htr, outputCount_cons_of_not (.callGetMachine id) _ rfl,
            outputCount_deleteMachineBlock]
        | false =>
          cases ha : ask (deleteConfirmMsg name) with
          | none =>
            right
            have htr : deleteNodeCmd output (.ok id) false get ask del =
                [.callGetMachine id, .askConfirm (deleteConfirmMsg name)] := by
              simp [deleteNodeCmd, hg, ha]
            exact ⟨by rw [htr]; rfl, id, name, rfl, hg, rfl, ha⟩
          | some confirm =>
            left
            cases confirm with
            | true =>
              have htr : deleteNodeCmd output (.ok id) false get ask del =
                  .callGetMachine id :: .askConfirm (deleteConfirmMsg name) ::
                    deleteMachineBlock output id del := by
                simp [deleteNodeCmd, hg, ha]
              rw [htr, outputCount_cons_of_not (.callGetMachine id) _ rfl,
                outputCount_cons_of_not (.askConfirm (deleteConfirmMsg name)) _
                  rfl,
                outputCount_deleteMachineBlock]
            | false =>
              have htr : deleteNodeCmd output (.ok id) false get ask del =
                  [.callGetMachine id, .askConfirm (deleteConfirmMsg name),
                   .successOutput "Node not deleted"] := by
                simp [deleteNodeCmd, hg, ha]
              rw [htr]
              rfl
  · intro output nsf colsf lst env render
    cases nsf with
    | error e => left; rfl
    | ok nspace =>
      cases colsf with
      | error e => left; rfl
      | ok columns =>
        cases hl : lst nspace with
        | error e => left; simp [listNodesCmd, hl, outputCount, isOutput]
        | ok machines =>
          cases ho : (output != "") with
          | true =>
            left
            simp [listNodesCmd, hl, ho, outputCount, isOutput]
          | false =>
            cases htab : nodesToPtables env nspace columns machines with
            | error e =>
              cases e with
              | keyDecodeError =>
                left
                simp [listNodesCmd, hl, ho, htab, outputCount, isOutput]
              | addrCrash =>
                right
                have htr : listNodesCmd output (.ok nspace) (.ok columns) lst
                    env render = [.callListMachines nspace, .crash] := by
                  simp [listNodesCmd, hl, ho, htab]
                rw [htr]
                exact ⟨rfl, Or.inl (by simp)⟩
            | ok tableData =>
              cases hr : render tableData with
              | error e =>
                left
                simp [listNodesCmd, hl, ho, htab, hr, outputCount, isOutput]
              | ok u =>
                right
                have htr : listNodesCmd output (.ok nspace) (.ok columns) lst
                    env render =
                    [.callListMachines nspace, .renderTable tableData] := by
                  simp [listNodesCmd, hl, ho, htab, hr]
                rw [htr]
                exact ⟨rfl, Or.inr ⟨tableData, by simp⟩⟩

/-- Witness for C1 (amended): a concrete Register failure path emits
exactly one message. -/
theorem C1_amended_witness :
    outputCount (registerNodeCmd "" (.error "flag gone") (.ok "k")
      (fun _ _ => .ok "m")) = 1 :=
  C1_amended.1 "" (.error "flag gone") (.ok "k") (fun _ _ => .ok "m")

end HeadscaleCli
